import Mathlib

/-
Shallow embedding of the fruitbot-tutorial session server
(src/tutorial_app.py and src/final_app.py).

The simulation engine (`self.env`) is opaque in the source: the apps only call
`reset()`, `step(action) -> (observation, reward, done, info)` and `close()`.
We model it as a scripted oracle (`Env`): responses are popped from a script
list, and every invocation is logged into an operation trace (`ops`), so that
properties such as "the engine was stepped" or "close was invoked exactly once"
are observable.  Observations and encoded images are abstracted to natural
number identifiers (the spec treats pixel encoding as a serialization detail).
Python floats are modelled as exact rationals; `round(x, 1)` is modelled by
`round1` (rounding x to the nearest tenth).  Python dicts are modelled as
association lists with `dset` / `dremove` / `List.lookup`, and Python sets of
strings as duplicate-free lists with `setAdd` / `setDiscard`.
-/

namespace Fruitbot

/-- One entry in the engine invocation trace. -/
inductive EngineOp where
  | reset : EngineOp
  | step (action : ℕ) : EngineOp
  | close : EngineOp
deriving DecidableEq

/-- The tuple `(observation, reward, done, info)` returned by `env.step`;
`rgb` models `info.get('rgb', ...)` (absent when `none`). -/
structure StepOut where
  obs : ℕ
  reward : ℚ
  done : Bool
  rgb : Option ℕ
deriving DecidableEq

/-- Response used when the script is exhausted. -/
def defaultOut : StepOut := ⟨0, 0, false, none⟩

/-- The opaque engine: scripted responses plus an invocation trace. -/
structure Env where
  resetScript : List ℕ
  script : List StepOut
  ops : List EngineOp
deriving DecidableEq

/-- `env.reset()`: returns the next scripted observation and logs the call. -/
def Env.resetE (e : Env) : ℕ × Env :=
  match e.resetScript with
  | [] => (0, { e with ops := e.ops ++ [EngineOp.reset] })
  | o :: rest => (o, { e with resetScript := rest, ops := e.ops ++ [EngineOp.reset] })

/-- `env.step(a)`: returns the next scripted `(obs, reward, done, info)` and logs the call. -/
def Env.stepE (e : Env) (a : ℕ) : StepOut × Env :=
  match e.script with
  | [] => (defaultOut, { e with ops := e.ops ++ [EngineOp.step a] })
  | r :: rest => (r, { e with script := rest, ops := e.ops ++ [EngineOp.step a] })

/-- `env.close()`: logs the call. -/
def Env.closeE (e : Env) : Env :=
  { e with ops := e.ops ++ [EngineOp.close] }

/-- How many times `close` has been invoked on this engine instance. -/
def closeCount (e : Env) : ℕ :=
  (e.ops.filter (fun o => o = EngineOp.close)).length

/-- A fresh engine instance, as produced by `create_fruitbot_env()`. -/
def freshEnv : Env := ⟨[], [], []⟩

/-- Python's `round(x, 1)`: round to the nearest tenth.  (Python uses
round-half-to-even on floats; the tie-breaking rule is irrelevant to every
property proved below, which only needs that the result is a multiple of 1/10
and that multiples of 1/10 are fixed points.) -/
def round1 (q : ℚ) : ℚ := ((round (10 * q) : ℤ) : ℚ) / 10

/-- Python `set.add`. -/
def setAdd (s : List String) (k : String) : List String :=
  if k ∈ s then s else k :: s

/-- Python `set.discard`. -/
def setDiscard (s : List String) (k : String) : List String :=
  s.filter (fun x => x ≠ k)

/-- Python dict assignment `m[k] = v` (replaces any previous binding of `k`). -/
def dset {β : Type} (m : List (String × β)) (k : String) (v : β) : List (String × β) :=
  (k, v) :: m.filter (fun p => p.1 ≠ k)

/-- Python `del m[k]` (removes the binding of `k`, if any). -/
def dremove {β : Type} (m : List (String × β)) (k : String) : List (String × β) :=
  m.filter (fun p => p.1 ≠ k)

/-- `ACTION_FORWARD = 1` (tutorial_app.py line 38). -/
def ACTION_FORWARD : ℕ := 1

/-- The result dict produced by `FruitbotTutorialControl.step` /
`get_initial_observation` (tutorial_app.py lines 94-103 and 119-128). -/
structure StepResult where
  image : ℕ
  episode : ℕ
  reward : ℚ
  done : Bool
  score : ℚ
  last_score : ℚ
  episode_finished : Bool
  step_count : ℕ
deriving DecidableEq

/-- The `FruitbotTutorialControl` class state (tutorial_app.py lines 41-55).
The `game_loop_task` handle is modelled at the application level. -/
structure FruitbotTutorialControl where
  env : Env
  episode_num : ℕ
  score : ℚ
  last_score : ℚ
  episode_actions : List ℕ
  current_obs : Option ℕ
  episode_done : Bool
  step_count : ℕ
  keys_pressed : List String
  running : Bool
deriving DecidableEq

/-- `FruitbotTutorialControl.__init__` (tutorial_app.py lines 42-55). -/
def initTutorialControl (e : Env) : FruitbotTutorialControl :=
  ⟨e, 0, 0, 0, [], none, false, 0, [], false⟩

/-- `FruitbotTutorialControl.reset` (tutorial_app.py lines 57-65). -/
def FruitbotTutorialControl.reset (g : FruitbotTutorialControl) :
    ℕ × FruitbotTutorialControl :=
  let (obs, env') := g.env.resetE
  (obs, { g with
            env := env', score := 0, step_count := 0, episode_actions := [],
            current_obs := some obs, episode_done := false, keys_pressed := [] })

/-- `FruitbotTutorialControl.get_current_action` (tutorial_app.py lines 67-77). -/
def FruitbotTutorialControl.get_current_action (g : FruitbotTutorialControl) : ℕ :=
  if "ArrowLeft" ∈ g.keys_pressed then 0
  else if "ArrowRight" ∈ g.keys_pressed then 2
  else if "Space" ∈ g.keys_pressed then 3
  else ACTION_FORWARD

/-- `FruitbotTutorialControl.step` (tutorial_app.py lines 79-111).  The result
dict is built before the `done` branch resets score / step_count, exactly as in
the source, and `episode_done` is never assigned in `step`. -/
def FruitbotTutorialControl.step (g : FruitbotTutorialControl) (raw_action : ℕ) :
    FruitbotTutorialControl × Option StepResult :=
  if g.episode_done then (g, none)
  else
    let (out, env') := g.env.stepE raw_action
    let reward := round1 out.reward
    let score := round1 (g.score + reward)
    let g1 := { g with
                  env := env',
                  episode_actions := g.episode_actions ++ [raw_action],
                  step_count := g.step_count + 1,
                  score := score, current_obs := some out.obs }
    let img := out.rgb.getD out.obs
    let result : StepResult :=
      { image := img, episode := g1.episode_num, reward := reward, done := out.done,
        score := score, last_score := g1.last_score, episode_finished := out.done,
        step_count := g1.step_count }
    let g2 := if out.done then
        { g1 with
            last_score := score, episode_actions := [], score := 0, step_count := 0 }
      else g1
    (g2, some result)

/-- `FruitbotTutorialControl.get_initial_observation` (tutorial_app.py lines
113-128): increments the episode counter, resets, takes one forced forward
step directly on the env (so `step_count` stays 0 and `current_obs` keeps the
reset observation, as in the source), and returns `reward=0, done=false`. -/
def FruitbotTutorialControl.get_initial_observation (g : FruitbotTutorialControl) :
    FruitbotTutorialControl × StepResult :=
  let g0 := { g with episode_num := g.episode_num + 1 }
  let (_obs, g1) := g0.reset
  let (out, env') := g1.env.stepE ACTION_FORWARD
  let g2 := { g1 with env := env' }
  let img := out.rgb.getD out.obs
  (g2, { image := img, episode := g2.episode_num, reward := 0, done := false,
         score := g2.score, last_score := g2.last_score, episode_finished := false,
         step_count := g2.step_count })

/-- A `key_down` / `key_up` transport event. -/
inductive KeyEvent where
  | down (key : String) : KeyEvent
  | up (key : String) : KeyEvent

/-- Effect of one key event on the held-keys set (tutorial_app.py lines
288-318: `key_down` adds, `key_up` discards). -/
def applyKeyEvent (s : List String) : KeyEvent → List String
  | KeyEvent.down k => setAdd s k
  | KeyEvent.up k => setDiscard s k

/-- Held-keys set resulting from a sequence of key events. -/
def applyKeyEvents (evs : List KeyEvent) (s : List String) : List String :=
  evs.foldl applyKeyEvent s

/-- `action_mapping` (final_app.py lines 69-73): reduced UI action to raw
procgen action.  A key outside the dict raises `KeyError`, modelled as `none`. -/
def action_mapping : ℕ → Option ℕ
  | 0 => some 1
  | 1 => some 4
  | 2 => some 7
  | 3 => some 9
  | _ => none

/-- The result dict produced by `FinalGameControl.step` / `handle_action` /
`get_initial_observation` (final_app.py lines 136-144, 151-159, 178-187).
`image` is `Option` because `encode_image` returns `None` on a non-array input
(final_app.py lines 75-82); the `action` key added by some handlers is a
presentation detail and omitted. -/
structure FinalStepResult where
  image : Option ℕ
  episode : ℕ
  reward : ℚ
  done : Bool
  score : ℚ
  last_score : ℚ
  step_count : ℕ
deriving DecidableEq

/-- The `FinalGameControl` class state (final_app.py lines 84-96).
`last_action_time` (wall-clock seconds) is threaded as an explicit `now`
argument to the mutating operations. -/
structure FinalGameControl where
  env : Env
  episode_num : ℕ
  score : ℚ
  last_score : ℚ
  episode_actions : List ℕ
  episode_images : List ℕ
  current_obs : Option ℕ
  episode_finished : Bool
  step_count : ℕ
  last_action_time : ℚ
  ready_to_play : Bool
deriving DecidableEq

/-- `FinalGameControl.__init__` (final_app.py lines 85-96). -/
def initFinalControl (e : Env) (now : ℚ) : FinalGameControl :=
  ⟨e, 0, 0, 0, [], [], none, false, 0, now, false⟩

/-- `FinalGameControl.reset` (final_app.py lines 98-111): env reset followed by
one forced forward step (raw action 1) inside `reset` itself; `current_obs`
holds the stepped observation and the returned value is the rendered image. -/
def FinalGameControl.reset (g : FinalGameControl) (now : ℚ) :
    ℕ × FinalGameControl :=
  let (_obs0, env1) := g.env.resetE
  let (out, env2) := env1.stepE 1
  let img := out.rgb.getD out.obs
  (img, { g with
            env := env2, score := 0, step_count := 0, episode_actions := [],
            episode_images := [], current_obs := some out.obs,
            episode_finished := false, last_action_time := now })

/-- `FinalGameControl.step` (final_app.py lines 113-144).  An already-finished
episode short-circuits to `(g, none)`; an action outside `action_mapping`
raises `KeyError`, modelled as the outer `none`.  Unlike the tutorial variant,
`last_score` / `episode_finished` are updated before the result dict is built,
so the returned `last_score` is the updated one. -/
def FinalGameControl.step (g : FinalGameControl) (action : ℕ) (now : ℚ) :
    Option (FinalGameControl × Option FinalStepResult) :=
  if g.episode_finished then some (g, none)
  else
    match action_mapping action with
    | none => none
    | some pa =>
      let (out, env') := g.env.stepE pa
      let reward := round1 out.reward
      let score := round1 (g.score + reward)
      let g1 := { g with
                    env := env', last_action_time := now,
                    episode_actions := g.episode_actions ++ [action],
                    step_count := g.step_count + 1, score := score }
      let g2 := if out.done then
          { g1 with last_score := score, episode_finished := true }
        else g1
      let g3 := { g2 with current_obs := some out.obs }
      let img := out.rgb.getD out.obs
      some (g3, some { image := some img, episode := g3.episode_num, reward := reward,
                       done := out.done, score := score, last_score := g3.last_score,
                       step_count := g3.step_count })

/-- `key_to_action` (final_app.py lines 163-167). -/
def key_to_action (s : String) : Option ℕ :=
  if s = "ArrowLeft" then some 0
  else if s = "ArrowRight" then some 2
  else if s = "Space" then some 3
  else none

/-- `FinalGameControl.handle_action` (final_app.py lines 146-172): when the
episode is finished, returns a snapshot of the current state without touching
the session or the engine; an unmapped key returns `None`; otherwise steps. -/
def FinalGameControl.handle_action (g : FinalGameControl) (action_str : String)
    (now : ℚ) : Option (FinalGameControl × Option FinalStepResult) :=
  if g.episode_finished then
    some (g, some { image := g.current_obs, episode := g.episode_num, reward := 0,
                    done := true, score := g.score, last_score := g.last_score,
                    step_count := g.step_count })
  else
    match key_to_action action_str with
    | none => some (g, none)
    | some a => g.step a now

/-- `FinalGameControl.get_initial_observation` (final_app.py lines 174-187):
resets (which performs the forced forward step), then increments the episode
counter, and returns `reward=0, done=false, score=0`. -/
def FinalGameControl.get_initial_observation (g : FinalGameControl) (now : ℚ) :
    FinalGameControl × FinalStepResult :=
  let (obs, g1) := g.reset now
  let g2 := { g1 with episode_num := g1.episode_num + 1 }
  (g2, { image := some obs, episode := g2.episode_num, reward := 0, done := false,
         score := 0, last_score := g2.last_score, step_count := g2.step_count })

/-- Global mutable state of tutorial_app.py (lines 131-136): the per-user game
registry, the connection-to-user map, and the set of users with a live game
loop task.  `retired` collects game objects dropped from the registry (in
Python they become garbage); keeping them makes their engine traces — in
particular whether `close` was invoked — observable. -/
structure TutorialAppState where
  game_controls : List (String × FruitbotTutorialControl)
  sid_to_user : List (String × String)
  user_game_loops : List String
  retired : List FruitbotTutorialControl
deriving DecidableEq

/-- The `disconnect` handler of tutorial_app.py (lines 227-257): drop the
connection's mapping; if other connections remain for the user, stop; else set
`running := False`, invoke the engine's `close`, delete the game instance and
cancel the user's game loop task. -/
def tutorialDisconnect (st : TutorialAppState) (sid : String) : TutorialAppState :=
  match st.sid_to_user.lookup sid with
  | none => st
  | some user_id =>
    let s2u := dremove st.sid_to_user sid
    let others := s2u.filter (fun p => p.2 = user_id)
    if others.isEmpty = false then { st with sid_to_user := s2u }
    else
      let (gcs, ret) :=
        match st.game_controls.lookup user_id with
        | some game =>
          (dremove st.game_controls user_id,
           [{ game with running := false, env := game.env.closeE }])
        | none => (st.game_controls, [])
      { st with
          sid_to_user := s2u, game_controls := gcs,
          retired := st.retired ++ ret,
          user_game_loops := st.user_game_loops.filter (fun u => u ≠ user_id) }

/-- The `start_game` handler of tutorial_app.py (lines 260-284): bind the
connection to the user (no eviction of previously bound connections), create a
game control and loop task if absent, then run `get_initial_observation` and
set `running := True`; the returned result is emitted to the caller. -/
def tutorialStartGame (st : TutorialAppState) (sid user_id : String) :
    TutorialAppState × StepResult :=
  let s2u := dset st.sid_to_user sid user_id
  let (game0, loops0) :=
    match st.game_controls.lookup user_id with
    | none => (initTutorialControl freshEnv, st.user_game_loops ++ [user_id])
    | some g => (g, st.user_game_loops)
  let (g1, resp) := game0.get_initial_observation
  let g2 := { g1 with running := true }
  ({ st with
       sid_to_user := s2u, game_controls := dset st.game_controls user_id g2,
       user_game_loops := loops0 }, resp)

/-- Outcome of one iteration of the per-user game loop. -/
inductive LoopOutcome where
  | terminate : LoopOutcome
  | backoff (secs : ℚ) : LoopOutcome
  | stepped (result : Option StepResult) : LoopOutcome
deriving DecidableEq

/-- One iteration of `user_game_loop` in tutorial_app.py (lines 149-172), up to
the publish phase: a missing session terminates the loop permanently; a paused
(`running = False`), finished, or observation-less session sleeps 0.1 s and
re-polls without touching the engine; otherwise the held-keys action is
resolved and the session stepped. -/
def userGameLoopIter (st : TutorialAppState) (user_id : String) :
    TutorialAppState × LoopOutcome :=
  match st.game_controls.lookup user_id with
  | none => (st, LoopOutcome.terminate)
  | some game =>
    if game.running = false then (st, LoopOutcome.backoff (1 / 10))
    else if game.episode_done = true ∨ game.current_obs = none then
      (st, LoopOutcome.backoff (1 / 10))
    else
      let action := game.get_current_action
      let (g', res) := game.step action
      ({ st with game_controls := dset st.game_controls user_id g' },
       LoopOutcome.stepped res)

/-- One outbound transport event. -/
structure Emit where
  sid : String
  event : String
  payload : StepResult
deriving DecidableEq

/-- The publish phase of `user_game_loop` (tutorial_app.py lines 174-183):
collect every sid currently bound to the user and emit `episode_finished` when
the result says the episode finished, else a `frame` progress event, carrying
the full result record. -/
def publishResult (st : TutorialAppState) (user_id : String) (res : StepResult) :
    List Emit :=
  (st.sid_to_user.filter (fun p => p.2 = user_id)).map (fun p =>
    if res.episode_finished then ⟨p.1, "episode_finished", res⟩
    else ⟨p.1, "frame", res⟩)

/-- Global mutable state of final_app.py (lines 191-194).  `disconnected`
records the sids the server instructed the transport to disconnect
(`sio.disconnect(old_sid)`); `retired` collects dropped game objects as in
`TutorialAppState`. -/
structure FinalAppState where
  final_game_controls : List (String × FinalGameControl)
  final_sid_to_user : List (String × String)
  disconnected : List String
  retired : List FinalGameControl
deriving DecidableEq

/-- The `disconnect` handler of final_app.py (lines 289-301): only the
connection mapping is removed; the game-control cleanup is commented out in the
source, so the session and its engine are left untouched. -/
def finalDisconnect (st : FinalAppState) (sid : String) : FinalAppState :=
  if (st.final_sid_to_user.lookup sid).isSome then
    { st with final_sid_to_user := dremove st.final_sid_to_user sid }
  else st

/-- The player-name validation of final_app.py line 326:
`not user_id or len(str(user_id).strip()) == 0`, i.e. the name is empty or
all-whitespace. -/
def isBlank (s : String) : Bool :=
  s.toList.all Char.isWhitespace

/-- The `start_game` handler of final_app.py (lines 314-364): validate the
player name; evict the first other connection bound to the same user (delete
its mapping and instruct the transport to disconnect it); bind the new
connection; create or reuse the game control; return the initial observation
(`none` models the validation-error reply). -/
def finalStartGame (st : FinalAppState) (sid user_id : String) (now : ℚ) :
    FinalAppState × Option FinalStepResult :=
  if isBlank user_id then (st, none)
  else
    let (s2u1, disc1) :=
      match st.final_sid_to_user.find? (fun p => p.2 = user_id) with
      | some p =>
        if p.1 ≠ sid then (dremove st.final_sid_to_user p.1, [p.1])
        else (st.final_sid_to_user, [])
      | none => (st.final_sid_to_user, [])
    let s2u := dset s2u1 sid user_id
    let game0 :=
      match st.final_game_controls.lookup user_id with
      | none => initFinalControl freshEnv now
      | some g => g
    let (g1, resp) := game0.get_initial_observation now
    ({ st with
         final_sid_to_user := s2u,
         final_game_controls := dset st.final_game_controls user_id g1,
         disconnected := st.disconnected ++ disc1 }, some resp)

/-- One sweep of `cleanup_stale_connections` in final_app.py (lines 481-507):
compute the users with no bound connection and delete their game controls from
the registry.  The engine's `close` is not invoked on this path. -/
def cleanupStale (st : FinalAppState) : FinalAppState :=
  let stale := (st.final_game_controls.map Prod.fst).filter
    (fun u => ! st.final_sid_to_user.any (fun p => p.2 = u))
  { st with
      final_game_controls := st.final_game_controls.filter (fun p => p.1 ∉ stale),
      retired := st.retired ++
        (st.final_game_controls.filter (fun p => p.1 ∈ stale)).map Prod.snd }

/-! Helper lemmas about the dict and engine models. -/

theorem lookup_eq_none_of_forall {β : Type} (m : List (String × β)) (k : String)
    (h : ∀ p ∈ m, p.1 ≠ k) : m.lookup k = none := by
  induction m with
  | nil => rfl
  | cons p t ih =>
    have hp : p.1 ≠ k := h p (by simp)
    have hb : (k == p.1) = false := beq_eq_false_iff_ne.2 (fun hk => hp hk.symm)
    simp only [List.lookup, hb]
    exact ih fun q hq => h q (by simp [hq])

theorem mem_of_lookup_eq_some {β : Type} (m : List (String × β)) (k : String) (v : β)
    (h : m.lookup k = some v) : (k, v) ∈ m := by
  induction m with
  | nil => simp [List.lookup] at h
  | cons p t ih =>
    by_cases hk : k = p.1
    · have hb : (k == p.1) = true := beq_iff_eq.2 hk
      simp only [List.lookup, hb] at h
      have : v = p.2 := by
        cases h; rfl
      subst this; subst hk
      simp
    · have hb : (k == p.1) = false := beq_eq_false_iff_ne.2 hk
      simp only [List.lookup, hb] at h
      exact List.mem_cons_of_mem _ (ih h)

theorem dlookup_dset_self {β : Type} (m : List (String × β)) (k : String) (v : β) :
    (dset m k v).lookup k = some v := by
  simp [dset, List.lookup]

theorem dlookup_dremove_self {β : Type} (m : List (String × β)) (k : String) :
    (dremove m k).lookup k = none := by
  refine lookup_eq_none_of_forall _ _ fun p hp => ?hne
  have := List.mem_filter.1 hp
  simpa using this.2

theorem closeCount_closeE (e : Env) : closeCount e.closeE = closeCount e + 1 := by
  simp [closeCount, Env.closeE, List.filter_append]

/-! Helper lemmas about rounding to one decimal. -/

theorem round1_tenths (n : ℤ) : round1 ((n : ℚ) / 10) = (n : ℚ) / 10 := by
  have h : (10 : ℚ) * ((n : ℚ) / 10) = (n : ℚ) := by
    field_simp
  rw [round1, h, round_intCast]

theorem add_tenths (n m : ℤ) :
    (n : ℚ) / 10 + (m : ℚ) / 10 = ((n + m : ℤ) : ℚ) / 10 := by
  push_cast
  ring

/-- C3: after any sequence of key_down/key_up events, `get_current_action`
returns exactly one action from the set left=0, right=2, throw=3, forward=1,
with priority left > right > throw > forward, regardless of how many keys are
held simultaneously. -/
theorem c3_get_current_action_priority (evs : List KeyEvent)
    (g : FruitbotTutorialControl) :
    (FruitbotTutorialControl.get_current_action
        { g with keys_pressed := applyKeyEvents evs [] } ∈ ([0, 2, 3, 1] : List ℕ)) ∧
    (FruitbotTutorialControl.get_current_action
        { g with keys_pressed := applyKeyEvents evs [] } = 0 ↔
      "ArrowLeft" ∈ applyKeyEvents evs []) ∧
    (FruitbotTutorialControl.get_current_action
        { g with keys_pressed := applyKeyEvents evs [] } = 2 ↔
      "ArrowLeft" ∉ applyKeyEvents evs [] ∧ "ArrowRight" ∈ applyKeyEvents evs []) ∧
    (FruitbotTutorialControl.get_current_action
        { g with keys_pressed := applyKeyEvents evs [] } = 3 ↔
      "ArrowLeft" ∉ applyKeyEvents evs [] ∧ "ArrowRight" ∉ applyKeyEvents evs [] ∧
      "Space" ∈ applyKeyEvents evs []) ∧
    (FruitbotTutorialControl.get_current_action
        { g with keys_pressed := applyKeyEvents evs [] } = 1 ↔
      "ArrowLeft" ∉ applyKeyEvents evs [] ∧ "ArrowRight" ∉ applyKeyEvents evs [] ∧
      "Space" ∉ applyKeyEvents evs []) := by
  set s := applyKeyEvents evs [] with hs
  simp only [FruitbotTutorialControl.get_current_action, ACTION_FORWARD]
  by_cases h1 : "ArrowLeft" ∈ s
  · simp [h1]
  · by_cases h2 : "ArrowRight" ∈ s
    · simp [h1, h2]
    · by_cases h3 : "Space" ∈ s
      · simp [h1, h2, h3]
      · simp [h1, h2, h3]

/-- C5: for a session whose finished flag is set, `step` is a no-op returning
no result, in both app variants: the state (including the engine and its
invocation trace) is returned unchanged and no result record is produced. -/
theorem c5_step_finished_is_noop :
    (∀ (g : FruitbotTutorialControl) (a : ℕ), g.episode_done = true →
      g.step a = (g, none)) ∧
    (∀ (gf : FinalGameControl) (a : ℕ) (now : ℚ), gf.episode_finished = true →
      gf.step a now = some (gf, none)) := by
  constructor
  · intro g a h
    simp [FruitbotTutorialControl.step, h]
  · intro gf a now h
    simp [FinalGameControl.step, h]

/-- Concrete finished tutorial session used by the C5 witness. -/
def c5TutorialEx : FruitbotTutorialControl :=
  ⟨freshEnv, 1, 0, 0, [], none, true, 0, [], true⟩

/-- Concrete finished final-app session used by the C5 witness. -/
def c5FinalEx : FinalGameControl :=
  ⟨freshEnv, 1, 0, 0, [], [], none, true, 0, 0, true⟩

/-- Witness for C5 at concrete finished sessions. -/
theorem c5_step_finished_is_noop_witness :
    c5TutorialEx.step 0 = (c5TutorialEx, none) ∧
    c5FinalEx.step 1 0 = some (c5FinalEx, none) :=
  ⟨c5_step_finished_is_noop.1 c5TutorialEx 0 rfl,
   c5_step_finished_is_noop.2 c5FinalEx 1 0 rfl⟩

/-- C10: when the finished flag is set, `handle_action` returns a snapshot
result with `done=true`, `reward=0.0` and the current score, lastScore,
episode number and step count, while returning the session unchanged (so the
engine, whose invocation trace is part of the session state, is not stepped). -/
theorem c10_handle_action_finished_snapshot (g : FinalGameControl)
    (action_str : String) (now : ℚ) (h : g.episode_finished = true) :
    g.handle_action action_str now =
      some (g, some ⟨g.current_obs, g.episode_num, 0, true, g.score,
                     g.last_score, g.step_count⟩) := by
  simp [FinalGameControl.handle_action, h]

/-- Concrete finished final-app session used by the C10 witness. -/
def c10FinalEx : FinalGameControl :=
  ⟨freshEnv, 2, 7 / 2, 3, [0, 1], [], some 9, true, 4, 0, true⟩

/-- Witness for C10 at a concrete finished session and an arbitrary action. -/
theorem c10_handle_action_finished_snapshot_witness :
    c10FinalEx.handle_action "ArrowLeft" 0 =
      some (c10FinalEx, some ⟨some 9, 2, 0, true, 7 / 2, 3, 4⟩) :=
  c10_handle_action_finished_snapshot c10FinalEx "ArrowLeft" 0 rfl

/-- C9: in both app variants, `get_initial_observation` increments the episode
counter by exactly one, zeroes the score and step counters, performs on the
engine exactly a reset followed by one forced forward step (raw action
`ACTION_FORWARD = 1` in the tutorial app, raw action 1 in the final app), and
returns a result record with `reward=0` and `done=false`. -/
theorem c9_get_initial_observation_spec (g : FruitbotTutorialControl)
    (gf : FinalGameControl) (now : ℚ) :
    ((g.get_initial_observation.1.episode_num = g.episode_num + 1) ∧
     (g.get_initial_observation.1.score = 0) ∧
     (g.get_initial_observation.1.step_count = 0) ∧
     (g.get_initial_observation.1.env.ops =
        g.env.ops ++ [EngineOp.reset, EngineOp.step ACTION_FORWARD]) ∧
     (g.get_initial_observation.2.reward = 0) ∧
     (g.get_initial_observation.2.done = false) ∧
     (g.get_initial_observation.2.episode_finished = false)) ∧
    (((gf.get_initial_observation now).1.episode_num = gf.episode_num + 1) ∧
     ((gf.get_initial_observation now).1.score = 0) ∧
     ((gf.get_initial_observation now).1.step_count = 0) ∧
     ((gf.get_initial_observation now).1.env.ops =
        gf.env.ops ++ [EngineOp.reset, EngineOp.step 1]) ∧
     ((gf.get_initial_observation now).2.reward = 0) ∧
     ((gf.get_initial_observation now).2.done = false) ∧
     ((gf.get_initial_observation now).2.score = 0)) := by
  constructor
  · obtain ⟨⟨rsc, sc, ops⟩, en, s0, ls, ea, co, ed, stc, kp, ru⟩ := g
    cases rsc <;> cases sc <;>
      simp [FruitbotTutorialControl.get_initial_observation,
            FruitbotTutorialControl.reset, Env.resetE, Env.stepE, List.append_assoc]
  · obtain ⟨⟨rsc, sc, ops⟩, en, s0, ls, ea, ei, co, ef, stc, lat, rp⟩ := gf
    cases rsc <;> cases sc <;>
      simp [FinalGameControl.get_initial_observation,
            FinalGameControl.reset, Env.resetE, Env.stepE, List.append_assoc]

/-- C7: one tick-loop iteration terminates the loop permanently when the
user's session is gone from the registry; and when `running` is false, or the
episode is finished, or there is no current observation, it leaves the state
untouched (so the engine is not stepped) and sleeps the fixed 0.1 s backoff
before re-polling. -/
theorem c7_loop_iteration_guards (st : TutorialAppState) (user_id : String) :
    (st.game_controls.lookup user_id = none →
      userGameLoopIter st user_id = (st, LoopOutcome.terminate)) ∧
    (∀ game, st.game_controls.lookup user_id = some game →
      (game.running = false ∨ game.episode_done = true ∨ game.current_obs = none) →
      userGameLoopIter st user_id = (st, LoopOutcome.backoff (1 / 10))) := by
  constructor
  · intro h
    simp [userGameLoopIter, h]
  · intro game h hcond
    by_cases hr : game.running = false
    · simp [userGameLoopIter, h, hr]
    · rcases hcond with hc | hc | hc
      · exact absurd hc hr
      · simp [userGameLoopIter, h, hr, hc]
      · simp [userGameLoopIter, h, hr, hc]

/-- Concrete paused session used by the C7 witness. -/
def c7PausedEx : FruitbotTutorialControl :=
  ⟨freshEnv, 1, 0, 0, [], some 3, false, 0, [], false⟩

/-- Concrete registry states used by the C7 witness: one with no session for
the user, one whose session is paused. -/
def c7EmptySt : TutorialAppState := ⟨[], [], [], []⟩

/-- Registry holding the paused session for user alice (C7 witness). -/
def c7PausedSt : TutorialAppState := ⟨[("alice", c7PausedEx)], [], ["alice"], []⟩

/-- Witness for C7: the loop terminates for a missing session and backs off
0.1 s for a paused one. -/
theorem c7_loop_iteration_guards_witness :
    userGameLoopIter c7EmptySt "alice" = (c7EmptySt, LoopOutcome.terminate) ∧
    userGameLoopIter c7PausedSt "alice" = (c7PausedSt, LoopOutcome.backoff (1 / 10)) :=
  ⟨(c7_loop_iteration_guards c7EmptySt "alice").1 rfl,
   (c7_loop_iteration_guards c7PausedSt "alice").2 c7PausedEx rfl (Or.inl rfl)⟩

/-! Score accumulation (C4): running a session for several steps. -/

/-- Iterated tutorial `step` over a list of actions, keeping the session. -/
def runTutorialSteps (g : FruitbotTutorialControl) (acts : List ℕ) :
    FruitbotTutorialControl :=
  acts.foldl (fun h a => (h.step a).1) g

/-- Iterated final-app `step` with the auto-forward action 1 (as issued by
`auto_action_handler`), keeping the session.  Action 1 is always in
`action_mapping`, so the `KeyError` branch is unreachable. -/
def runFinalSteps (g : FinalGameControl) (n : ℕ) : FinalGameControl :=
  match n with
  | 0 => g
  | n + 1 =>
    match g.step 1 0 with
    | some (g', _) => runFinalSteps g' n
    | none => g

/-- Effect of one non-terminal tutorial step on score, flag and script. -/
theorem tutorial_step_not_done (g : FruitbotTutorialControl) (a : ℕ)
    (r : StepOut) (rest : List StepOut)
    (hs : g.env.script = r :: rest) (hed : g.episode_done = false)
    (hr : r.done = false) :
    (g.step a).1.score = round1 (g.score + round1 r.reward) ∧
    (g.step a).1.episode_done = false ∧
    (g.step a).1.env.script = rest := by
  obtain ⟨⟨rsc, sc, ops⟩, en, s0, ls, ea, co, ed, stc, kp, ru⟩ := g
  simp only at hs hed
  subst hs hed
  simp [FruitbotTutorialControl.step, Env.stepE, hr]

/-- Effect of one non-terminal final-app auto step on score, flag and script. -/
theorem final_step_not_done (g : FinalGameControl)
    (r : StepOut) (rest : List StepOut)
    (hs : g.env.script = r :: rest) (hef : g.episode_finished = false)
    (hr : r.done = false) :
    ∃ g' res, g.step 1 0 = some (g', res) ∧
      g'.score = round1 (g.score + round1 r.reward) ∧
      g'.episode_finished = false ∧
      g'.env.script = rest := by
  obtain ⟨⟨rsc, sc, ops⟩, en, s0, ls, ea, ei, co, ef, stc, lat, rp⟩ := g
  simp only at hs hef
  subst hs hef
  refine ⟨_, _, rfl, ?hq⟩
  simp [FinalGameControl.step, Env.stepE, action_mapping, hr]

/-- `round1` always produces a multiple of one tenth. -/
theorem round1_mem_tenths (q : ℚ) : ∃ n : ℤ, round1 q = (n : ℚ) / 10 :=
  ⟨round (10 * q), rfl⟩

/-- Tutorial score accumulation: starting from a score that is a multiple of
one tenth, stepping through non-terminal engine responses adds exactly the
rounded per-step rewards. -/
theorem runTutorialSteps_score (rs : List StepOut) :
    ∀ (g : FruitbotTutorialControl) (acts : List ℕ) (rest : List StepOut) (n : ℤ),
      g.env.script = rs ++ rest →
      acts.length = rs.length →
      (∀ r ∈ rs, r.done = false) →
      g.episode_done = false →
      g.score = (n : ℚ) / 10 →
      (runTutorialSteps g acts).score =
        g.score + (rs.map (fun r => round1 r.reward)).sum := by
  induction rs with
  | nil =>
    intro g acts rest n hs hlen hdone hed hsc
    have hacts : acts = [] := List.length_eq_zero.1 (by simpa using hlen)
    subst hacts
    simp [runTutorialSteps]
  | cons r rt ih =>
    intro g acts rest n hs hlen hdone hed hsc
    cases acts with
    | nil => simp at hlen
    | cons a as =>
      have hr : r.done = false := hdone r (by simp)
      obtain ⟨hsc', hed', hscr'⟩ :=
        tutorial_step_not_done g a r (rt ++ rest) (by simpa using hs) hed hr
      obtain ⟨m, hm⟩ := round1_mem_tenths r.reward
      have hq : (g.step a).1.score = g.score + round1 r.reward := by
        rw [hsc', hsc, hm, add_tenths, round1_tenths, ← add_tenths, ← hm, ← hsc]
      have hrun : runTutorialSteps g (a :: as) = runTutorialSteps (g.step a).1 as := rfl
      rw [hrun, ih (g.step a).1 as rest (n + m) hscr' (by simpa using hlen)
            (fun x hx => hdone x (by simp [hx])) hed'
            (by rw [hq, hsc, hm, add_tenths])]
      rw [hq]
      simp [List.sum_cons]
      ring

/-- Final-app score accumulation under the auto-forward loop: same statement
as the tutorial one. -/
theorem runFinalSteps_score (rs : List StepOut) :
    ∀ (g : FinalGameControl) (rest : List StepOut) (n : ℤ),
      g.env.script = rs ++ rest →
      (∀ r ∈ rs, r.done = false) →
      g.episode_finished = false →
      g.score = (n : ℚ) / 10 →
      (runFinalSteps g rs.length).score =
        g.score + (rs.map (fun r => round1 r.reward)).sum := by
  induction rs with
  | nil =>
    intro g rest n hs hdone hef hsc
    simp [runFinalSteps]
  | cons r rt ih =>
    intro g rest n hs hdone hef hsc
    have hr : r.done = false := hdone r (by simp)
    obtain ⟨g', res, hstep, hsc', hef', hscr'⟩ :=
      final_step_not_done g r (rt ++ rest) (by simpa using hs) hef hr
    obtain ⟨m, hm⟩ := round1_mem_tenths r.reward
    have hq : g'.score = g.score + round1 r.reward := by
      rw [hsc', hsc, hm, add_tenths, round1_tenths, ← add_tenths, ← hm, ← hsc]
    have hrun : runFinalSteps g (r :: rt).length = runFinalSteps g' rt.length := by
      simp only [List.length_cons, runFinalSteps, hstep]
    rw [hrun, ih g' rest (n + m) hscr'
          (fun x hx => hdone x (by simp [hx])) hef'
          (by rw [hq, hsc, hm, add_tenths])]
    rw [hq]
    simp [List.sum_cons]
    ring

/-- C4: in both app variants, over any sequence of steps within one episode
(no terminal response), the session's accumulated score equals exactly the sum
of the per-step rewards each rounded to one decimal place: rounding at
accumulation time keeps the score equal to the sum of displayed rewards.
(Python floats are modelled as exact rationals.) -/
theorem c4_score_equals_sum_of_rounded_rewards :
    (∀ (g : FruitbotTutorialControl) (acts : List ℕ) (rs rest : List StepOut),
      g.env.script = rs ++ rest →
      acts.length = rs.length →
      (∀ r ∈ rs, r.done = false) →
      g.episode_done = false →
      g.score = 0 →
      (runTutorialSteps g acts).score =
        (rs.map (fun r => round1 r.reward)).sum) ∧
    (∀ (g : FinalGameControl) (rs rest : List StepOut),
      g.env.script = rs ++ rest →
      (∀ r ∈ rs, r.done = false) →
      g.episode_finished = false →
      g.score = 0 →
      (runFinalSteps g rs.length).score =
        (rs.map (fun r => round1 r.reward)).sum) := by
  constructor
  · intro g acts rs rest hs hlen hdone hed hsc
    have := runTutorialSteps_score rs g acts rest 0 hs hlen hdone hed
      (by rw [hsc]; norm_num)
    rw [this, hsc, zero_add]
  · intro g rs rest hs hdone hef hsc
    have := runFinalSteps_score rs g rest 0 hs hdone hef
      (by rw [hsc]; norm_num)
    rw [this, hsc, zero_add]

/-- Engine script used by the C4 witness: three non-terminal steps with
reward 0.5 each. -/
def c4Script : List StepOut :=
  [⟨1, 1 / 2, false, none⟩, ⟨2, 1 / 2, false, none⟩, ⟨3, 1 / 2, false, none⟩]

/-- Concrete tutorial session for the C4 witness. -/
def c4TutorialEx : FruitbotTutorialControl :=
  ⟨⟨[], c4Script, []⟩, 1, 0, 0, [], some 0, false, 0, [], true⟩

/-- Concrete final-app session for the C4 witness. -/
def c4FinalEx : FinalGameControl :=
  ⟨⟨[], c4Script, []⟩, 1, 0, 0, [], [], some 0, false, 0, 0, true⟩

/-- Witness for C4: three steps of reward 0.5 accumulate to exactly the sum of
the rounded rewards in both app variants. -/
theorem c4_score_equals_sum_of_rounded_rewards_witness :
    (runTutorialSteps c4TutorialEx [0, 1, 2]).score =
      (c4Script.map (fun r => round1 r.reward)).sum ∧
    (runFinalSteps c4FinalEx c4Script.length).score =
      (c4Script.map (fun r => round1 r.reward)).sum :=
  ⟨c4_score_equals_sum_of_rounded_rewards.1 c4TutorialEx [0, 1, 2] c4Script []
      (by simp [c4TutorialEx]) (by decide) (by decide) rfl rfl,
   c4_score_equals_sum_of_rounded_rewards.2 c4FinalEx c4Script []
      (by simp [c4FinalEx]) (by decide) rfl rfl⟩

/-- C8: the publisher delivers every step result to every connection currently
bound to the user, sending an `episode_finished` event when the result's
episode-finished flag is true and otherwise a `frame` progress event, carrying
the full result record. -/
theorem c8_publish_fans_out_to_all_bound_connections (st : TutorialAppState)
    (user_id sid : String) (res : StepResult)
    (h : (sid, user_id) ∈ st.sid_to_user) :
    (if res.episode_finished then (⟨sid, "episode_finished", res⟩ : Emit)
     else (⟨sid, "frame", res⟩ : Emit)) ∈ publishResult st user_id res := by
  unfold publishResult
  exact List.mem_map.2 ⟨(sid, user_id), List.mem_filter.2 ⟨h, by simp⟩, rfl⟩

/-- Registry state for the C8 witness: two tabs of user bob plus one of carol. -/
def c8St : TutorialAppState :=
  ⟨[], [("s1", "bob"), ("s2", "bob"), ("s3", "carol")], ["bob", "carol"], []⟩

/-- Progress result record used by the C8 witness. -/
def c8Res : StepResult := ⟨11, 1, 1, false, 1, 0, false, 5⟩

/-- Witness for C8: a progress event for user bob is delivered to both of
bob's connections. -/
theorem c8_publish_fans_out_witness :
    (⟨"s1", "frame", c8Res⟩ : Emit) ∈ publishResult c8St "bob" c8Res ∧
    (⟨"s2", "frame", c8Res⟩ : Emit) ∈ publishResult c8St "bob" c8Res :=
  ⟨c8_publish_fans_out_to_all_bound_connections c8St "bob" "s1" c8Res (by decide),
   c8_publish_fans_out_to_all_bound_connections c8St "bob" "s2" c8Res (by decide)⟩

/-- Tutorial session whose next engine response is terminal (`done = true`),
used to refute C2 as stated. -/
def c2TutorialEx : FruitbotTutorialControl :=
  ⟨⟨[], [⟨7, 3, true, some 9⟩, ⟨8, 1, false, none⟩], []⟩,
   1, 0, 0, [], some 5, false, 0, [], true⟩

/-- Counterexample to C2 as stated: in the tutorial app a step that observes
`done = true` publishes an episode-finished result, yet the session's finished
flag stays false, the score is reset to 0 rather than frozen, and a further
`step` still produces a result — the session is not frozen until an external
reset. -/
theorem c2_counterexample_tutorial_flag_not_set :
    ((c2TutorialEx.step 1).2.map StepResult.episode_finished = some true) ∧
    ((c2TutorialEx.step 1).1.episode_done = false) ∧
    ((c2TutorialEx.step 1).1.score = 0) ∧
    ((c2TutorialEx.step 1).1.step_count = 0) ∧
    (((c2TutorialEx.step 1).1.step 1).2.isSome = true) := by
  decide

/-- C2 amended: in `FinalGameControl`, a step that observes `done = true`
copies the accumulated score into `last_score`, sets the finished flag, and
freezes the session (every further `step` is a no-op producing no result until
an external reset / new episode).  In `FruitbotTutorialControl`, the step
copies the accumulated score into `last_score` and publishes an
episode-finished result, but the finished flag is left false and the score and
step counters are zeroed instead: the session auto-continues. -/
theorem c2_done_handling_amended :
    (∀ (g : FinalGameControl) (a pa : ℕ) (now : ℚ) (r : StepOut) (rest : List StepOut),
      g.episode_finished = false →
      g.env.script = r :: rest →
      r.done = true →
      action_mapping a = some pa →
      ∃ g' res, g.step a now = some (g', some res) ∧
        g'.episode_finished = true ∧
        g'.score = round1 (g.score + round1 r.reward) ∧
        g'.last_score = g'.score ∧
        res.done = true ∧
        (∀ (b : ℕ) (t : ℚ), g'.step b t = some (g', none))) ∧
    (∀ (g : FruitbotTutorialControl) (a : ℕ) (r : StepOut) (rest : List StepOut),
      g.episode_done = false →
      g.env.script = r :: rest →
      r.done = true →
      (g.step a).1.last_score = round1 (g.score + round1 r.reward) ∧
      (g.step a).1.score = 0 ∧
      (g.step a).1.step_count = 0 ∧
      (g.step a).1.episode_done = false ∧
      ((g.step a).2.map StepResult.episode_finished = some true)) := by
  constructor
  · intro g a pa now r rest hef hs hr hpa
    obtain ⟨⟨rsc, sc, ops⟩, en, s0, ls, ea, ei, co, ef, stc, lat, rp⟩ := g
    obtain ⟨robs, rrew, rdone, rrgb⟩ := r
    simp only at hs hef hr
    subst hs hef hr
    simp only [FinalGameControl.step, Env.stepE]
    rw [hpa]
    exact ⟨_, _, rfl, rfl, rfl, rfl, rfl, fun b t => rfl⟩
  · intro g a r rest hed hs hr
    obtain ⟨⟨rsc, sc, ops⟩, en, s0, ls, ea, co, ed, stc, kp, ru⟩ := g
    simp only at hs hed
    subst hs hed
    simp [FruitbotTutorialControl.step, Env.stepE, hr]

/-- Final-app session about to observe a terminal response (C2 witness). -/
def c2FinalEx : FinalGameControl :=
  ⟨⟨[], [⟨7, 3, true, some 9⟩], []⟩, 1, 1 / 2, 0, [], [], some 5, false, 2, 0, true⟩

/-- Witness for the amended C2 at concrete sessions: the final-app session
freezes with `last_score = score = 3.5`; the tutorial session copies
`last_score` but resets and keeps its finished flag false. -/
theorem c2_done_handling_amended_witness :
    (∃ g' res, c2FinalEx.step 0 0 = some (g', some res) ∧
      g'.episode_finished = true ∧
      g'.score = round1 (c2FinalEx.score + round1 3) ∧
      g'.last_score = g'.score ∧
      res.done = true ∧
      (∀ (b : ℕ) (t : ℚ), g'.step b t = some (g', none))) ∧
    ((c2TutorialEx.step 1).1.last_score = round1 (c2TutorialEx.score + round1 3) ∧
     (c2TutorialEx.step 1).1.score = 0 ∧
     (c2TutorialEx.step 1).1.step_count = 0 ∧
     (c2TutorialEx.step 1).1.episode_done = false ∧
     ((c2TutorialEx.step 1).2.map StepResult.episode_finished = some true)) :=
  ⟨c2_done_handling_amended.1 c2FinalEx 0 1 0 ⟨7, 3, true, some 9⟩ [] rfl rfl rfl rfl,
   c2_done_handling_amended.2 c2TutorialEx 1 ⟨7, 3, true, some 9⟩ [⟨8, 1, false, none⟩]
     rfl rfl rfl⟩

/-- Counterexample to C6 as stated: in the tutorial app, binding a second
connection to the same user via `start_game` does not evict the first one —
after s1 and then s2 both start a game as bob, s1 is still bound to bob (the
tutorial app has no transport-disconnect call at all, so no eviction
instruction exists in its state). -/
theorem c6_counterexample_tutorial_no_eviction :
    ((tutorialStartGame (tutorialStartGame ⟨[], [], [], []⟩ "s1" "bob").1
        "s2" "bob").1.sid_to_user.lookup "s1" = some "bob") ∧
    ((tutorialStartGame (tutorialStartGame ⟨[], [], [], []⟩ "s1" "bob").1
        "s2" "bob").1.sid_to_user.lookup "s2" = some "bob") := by
  decide

/-- C6 amended: only the final app evicts on rebind.  There, `start_game` for
a user with an existing bound connection removes that older connection's
mapping and instructs the transport to disconnect it, leaving the new
connection bound to the user.  The tutorial app's `start_game` leaves existing
bindings untouched (multiple tabs stay bound simultaneously). -/
theorem c6_final_start_game_evicts_older_connection (st : FinalAppState)
    (sid user_id old_sid : String) (now : ℚ)
    (hname : isBlank user_id = false)
    (hfind : st.final_sid_to_user.find? (fun p => p.2 = user_id) =
      some (old_sid, user_id))
    (hne : old_sid ≠ sid) :
    ((finalStartGame st sid user_id now).1.final_sid_to_user.lookup old_sid = none) ∧
    (old_sid ∈ (finalStartGame st sid user_id now).1.disconnected) ∧
    ((finalStartGame st sid user_id now).1.final_sid_to_user.lookup sid =
      some user_id) := by
  simp only [finalStartGame, hfind, hname]
  simp only [ne_eq, hne, not_false_iff, if_pos, if_true, Bool.false_eq_true,
    if_false]
  refine ⟨?hgone, ?hdisc, ?hbound⟩
  · have hb : (old_sid == sid) = false := beq_eq_false_iff_ne.2 hne
    simp only [dset, List.lookup, hb]
    refine lookup_eq_none_of_forall _ _ fun p hp => ?hpn
    have h1 := (List.mem_filter.1 hp).1
    have h2 := (List.mem_filter.1 h1).2
    simpa [dremove] using h2
  · simp
  · exact dlookup_dset_self _ _ _

/-- Registry for the C6 witness: old1 is bob's currently bound connection. -/
def c6FinalSt : FinalAppState := ⟨[], [("old1", "bob")], [], []⟩

/-- Witness for the amended C6: starting bob's game from connection new1
unbinds old1, instructs the transport to disconnect it, and binds new1. -/
theorem c6_final_start_game_evicts_witness :
    ((finalStartGame c6FinalSt "new1" "bob" 0).1.final_sid_to_user.lookup "old1" =
      none) ∧
    ("old1" ∈ (finalStartGame c6FinalSt "new1" "bob" 0).1.disconnected) ∧
    ((finalStartGame c6FinalSt "new1" "bob" 0).1.final_sid_to_user.lookup "new1" =
      some "bob") :=
  c6_final_start_game_evicts_older_connection c6FinalSt "new1" "bob" "old1" 0
    (by decide) (by decide) (by decide)

/-- Final-app state used to refute C1 as stated: user alice has a session with
a fresh engine (no close invoked yet) and exactly one bound connection s1. -/
def c1FinalSt : FinalAppState :=
  ⟨[("alice", initFinalControl freshEnv 0)], [("s1", "alice")], [], []⟩

/-- Counterexample to C1 as stated: in the final app, after alice's only
connection disconnects and the idle reaper runs, zero sessions remain for
alice — but the retired session's engine has had `close` invoked zero times,
not exactly once (the disconnect handler's cleanup is commented out and the
reaper only deletes the registry entry). -/
theorem c1_counterexample_final_close_never_invoked :
    ((cleanupStale (finalDisconnect c1FinalSt "s1")).final_game_controls.lookup
        "alice" = none) ∧
    ((cleanupStale (finalDisconnect c1FinalSt "s1")).retired.map
        (fun g => closeCount g.env) = [0]) := by
  decide

/-- C1 amended: when the only connection bound to a user disconnects, the
tutorial app immediately (in the disconnect handler) removes the user's
session and invokes the engine's close capability exactly once on the retired
session's engine; the final app reaches zero sessions for the user within one
idle-reaper interval, but the retired session's engine is dropped with its
invocation trace unchanged — its close capability is never invoked. -/
theorem c1_disconnect_retires_session_amended :
    (∀ (st : TutorialAppState) (sid u : String) (game : FruitbotTutorialControl),
      st.sid_to_user.lookup sid = some u →
      (∀ p ∈ st.sid_to_user, p.2 = u → p.1 = sid) →
      st.game_controls.lookup u = some game →
      closeCount game.env = 0 →
      ((tutorialDisconnect st sid).game_controls.lookup u = none ∧
       (tutorialDisconnect st sid).retired =
         st.retired ++ [{ game with running := false, env := game.env.closeE }] ∧
       closeCount (game.env.closeE) = 1)) ∧
    (∀ (st : FinalAppState) (u : String) (gf : FinalGameControl),
      st.final_game_controls.lookup u = some gf →
      (∀ p ∈ st.final_sid_to_user, p.2 ≠ u) →
      ((cleanupStale st).final_game_controls.lookup u = none ∧
       gf ∈ (cleanupStale st).retired)) := by
  constructor
  · intro st sid u game hsid honly hgame hclose
    have hempty : (dremove st.sid_to_user sid).filter (fun p => p.2 = u) = [] := by
      rw [List.filter_eq_nil_iff]
      intro p hp
      have hmem := List.mem_filter.1 hp
      have hne : p.1 ≠ sid := by simpa [dremove] using hmem.2
      intro hpu
      exact hne (honly p hmem.1 (by simpa using hpu))
    refine ⟨?hgone, ?hret, ?hcc⟩
    · simp only [tutorialDisconnect, hsid, hempty, hgame]
      simp [dlookup_dremove_self]
    · simp only [tutorialDisconnect, hsid, hempty, hgame]
      simp
    · rw [closeCount_closeE, hclose]
  · intro st u gf hgf hnoconn
    have hmem : (u, gf) ∈ st.final_game_controls :=
      mem_of_lookup_eq_some _ _ _ hgf
    have hany : st.final_sid_to_user.any (fun p => p.2 = u) = false := by
      rw [List.any_eq_false]
      intro p hp
      simpa using hnoconn p hp
    have hstale : u ∈ (st.final_game_controls.map Prod.fst).filter
        (fun v => ! st.final_sid_to_user.any (fun p => p.2 = v)) := by
      refine List.mem_filter.2 ⟨List.mem_map.2 ⟨(u, gf), hmem, rfl⟩, ?hflag⟩
      simp [hany]
    constructor
    · refine lookup_eq_none_of_forall _ _ fun p hp => ?hpn
      have h2 := (List.mem_filter.1 hp).2
      intro hpu
      rw [hpu] at h2
      simp only [decide_eq_true_eq] at h2
      exact h2 hstale
    · simp only [cleanupStale]
      refine List.mem_append.2 (Or.inr ?hin)
      refine List.mem_map.2 ⟨(u, gf), ?hinf, rfl⟩
      refine List.mem_filter.2 ⟨hmem, ?hflag2⟩
      simpa using hstale

/-- Tutorial registry for the C1 witness: alice has one connection s1 and a
session whose engine was never closed. -/
def c1TutorialSt : TutorialAppState :=
  ⟨[("alice", initTutorialControl freshEnv)], [("s1", "alice")], ["alice"], []⟩

/-- Final-app registry for the C1 witness: bob has a session and no bound
connection (his only connection already disconnected). -/
def c1FinalStale : FinalAppState :=
  ⟨[("bob", initFinalControl freshEnv 0)], [("s9", "carol")], [], []⟩

/-- Witness for the amended C1: the tutorial disconnect removes alice's
session and closes its engine exactly once; the final-app reaper removes
bob's stale session (retiring the control object unchanged). -/
theorem c1_disconnect_retires_session_amended_witness :
    ((tutorialDisconnect c1TutorialSt "s1").game_controls.lookup "alice" = none ∧
     (tutorialDisconnect c1TutorialSt "s1").retired =
       [{ initTutorialControl freshEnv with
            running := false, env := (initTutorialControl freshEnv).env.closeE }] ∧
     closeCount ((initTutorialControl freshEnv).env.closeE) = 1) ∧
    ((cleanupStale c1FinalStale).final_game_controls.lookup "bob" = none ∧
     initFinalControl freshEnv 0 ∈ (cleanupStale c1FinalStale).retired) :=
  ⟨c1_disconnect_retires_session_amended.1 c1TutorialSt "s1" "alice"
     (initTutorialControl freshEnv) rfl (by decide) rfl rfl,
   c1_disconnect_retires_session_amended.2 c1FinalStale "bob"
     (initFinalControl freshEnv 0) rfl (by decide)⟩

end Fruitbot
